import Mathlib

/-!
Verification of `zipline/protocol.py` (portfolio / position data model and
risk analytics).  The Python classes are shallowly embedded as Lean
structures, Python floats as rationals, dates as trading-session indices
(`Nat`), `None`-able fields as `Option`, and the external collaborators
(trading calendar, data portal, asset finder, the empyrical CVaR routine)
as function-valued fields or explicit parameters, so that every theorem
quantifies over all possible collaborator behaviours.
-/

namespace Zipline

/-- Trading dates are modelled as session indices; `None`-able date slots use
`Option Nat`. -/
abbrev Date := Nat

/-- Assets, mirroring `zipline.assets`: `Equity` (carrying its listing
`start_date`, read by `_asset_for_history_call`), `Future` (carrying
`root_symbol` and the contract `multiplier`), and a plain `Asset` that is
neither (`isinstance` checks against `Equity` and `Future` both fail). -/
inductive Asset
  | equity (sid : Nat) (start_date : Date)
  | future (sid : Nat) (root_symbol : String) (multiplier : ℚ)
  | generic (sid : Nat)
  deriving DecidableEq

/-- Embeds `asset_multiplier` (protocol.py line 145): the contract multiplier
for a `Future`, and `1` for every other asset. -/
def asset_multiplier (asset : Asset) : ℚ :=
  match asset with
  | Asset.future _ _ m => m
  | _ => 1

/-- Embeds the field layout set up by `Position.__init__`: `asset` plus the
mutable fields `amount`, `cost_basis`, `last_sale_price`, `last_sale_date`. -/
structure Position where
  asset : Asset
  amount : Int
  cost_basis : ℚ
  last_sale_price : ℚ
  last_sale_date : Option Date
  deriving DecidableEq

/-- Embeds the `Position.sid` property (protocol.py line 349): it returns
`self.asset` for backwards compatibility. -/
def Position.sid (p : Position) : Asset := p.asset

/-- A key passed to a `Positions` lookup: either an `Asset`, a raw integer,
or a value of some other Python type (represented by its type name, which is
all `Positions.__missing__` reads from it). -/
inductive PKey
  | asset (a : Asset)
  | intKey (n : Int)
  | other (tyname : String)
  deriving DecidableEq

/-- Embeds `Position.__init__` together with its `@expect_types(asset=Asset)`
decorator: a non-`Asset` argument raises `TypeError`; an `Asset` argument
yields the zero-valued position. -/
def Position.init (key : PKey) : Except String Position :=
  match key with
  | PKey.asset a => Except.ok ⟨a, 0, 0, 0, none⟩
  | PKey.intKey _ => Except.error "TypeError"
  | PKey.other _ => Except.error "TypeError"

/-- Embeds `_DeprecatedSidLookupPosition.__init__`: the raw lookup key is
stored in the `sid` slot; there is no `asset` slot. -/
structure DeprecatedSidLookupPosition where
  sid : PKey
  amount : Int
  cost_basis : ℚ
  last_sale_price : ℚ
  last_sale_date : Option Date
  deriving DecidableEq

/-- The two kinds of record a `Positions` lookup can produce. -/
inductive LookupResult
  | position (p : Position)
  | deprecated (d : DeprecatedSidLookupPosition)
  deriving DecidableEq

/-- A `Positions` book is a `dict` keyed by assets; embedded as an
association list. -/
abbrev PositionsBook := List (Asset × Position)

/-- Embeds a `Positions` item lookup, i.e. `dict.__getitem__` composed with
`Positions.__missing__` (protocol.py lines 399-410).  Returns the looked-up
record, the book after the lookup (CPython `dict.__missing__` does not store
its result, so the book is returned unchanged on every path) and the list of
warning messages emitted by `warn`. -/
def Positions.getitem_book (book : PositionsBook) (key : PKey) :
    LookupResult × PositionsBook × List String :=
  match key with
  | PKey.asset a =>
      match book.find? (fun e => e.1 == a) with
      | some e => (LookupResult.position e.2, book, [])
      | none => (LookupResult.position ⟨a, 0, 0, 0, none⟩, book, [])
  | PKey.intKey n =>
      (LookupResult.deprecated ⟨PKey.intKey n, 0, 0, 0, none⟩, book,
        ["Referencing positions by integer is deprecated. Use an asset instead."])
  | PKey.other tyname =>
      (LookupResult.deprecated ⟨PKey.other tyname, 0, 0, 0, none⟩, book,
        ["Position lookup expected a value of type Asset but got " ++ tyname
          ++ " instead."])

/-- Embeds the field layout set up by `Portfolio.__init__`. -/
structure Portfolio where
  capital_used : ℚ
  starting_cash : ℚ
  portfolio_value : ℚ
  pnl : ℚ
  returns : ℚ
  cash : ℚ
  positions : PositionsBook
  start_date : Option Date
  positions_value : ℚ
  deriving DecidableEq

/-- Embeds the defaults assigned by `Portfolio.__init__`. -/
def Portfolio.init : Portfolio := ⟨0, 0, 0, 0, 0, 0, [], none, 0⟩

/-- Embeds the `Portfolio.current_portfolio_weights` property (protocol.py
lines 182-200): each held asset maps to
`last_sale_price * amount * asset_multiplier(asset) / portfolio_value`. -/
def current_portfolio_weights (p : Portfolio) : List (Asset × ℚ) :=
  p.positions.map (fun ap =>
    (ap.1, ap.2.last_sale_price * (ap.2.amount : ℚ) * asset_multiplier ap.1
      / p.portfolio_value))

/-- Constant `TRADING_DAYS_PER_YEAR` (protocol.py line 64). -/
def TRADING_DAYS_PER_YEAR : Nat := 252

/-- Constant `CVAR_LOOKBACK_DAYS` (protocol.py line 65). -/
def CVAR_LOOKBACK_DAYS : Nat := TRADING_DAYS_PER_YEAR * 2

/-- Constant `CVAR_CUTOFF` (protocol.py line 66). -/
def CVAR_CUTOFF : ℚ := 5 / 100

/-- The effective asset handed to `data_portal.get_history_window`: either an
ordinary asset, or the continuous-future handle built by
`asset_finder.create_continuous_future(root_symbol, offset, roll_style,
adjustment)`, recorded by its four construction arguments. -/
inductive EffectiveAsset
  | plain (asset : Asset)
  | continuous_future (root_symbol : String) (offset : Nat) (roll_style : String)
      (adjustment : String)
  deriving DecidableEq

/-- A price history table, column-major: one list of (possibly missing,
i.e. NaN) daily prices per requested asset, in request order. -/
abbrev PriceTable := List (List (Option ℚ))

/-- External collaborator: the ordered contract chain returned by
`asset_finder.get_ordered_contracts`, of which the code only calls
`offset_of_contract(sid, current_date.value)`. -/
structure OrderedContracts where
  offset_of_contract : Nat → Option Date → Nat

/-- External collaborator: the asset finder, of which the code only calls
`get_ordered_contracts` (the `create_continuous_future` call is embedded as
the `EffectiveAsset.continuous_future` constructor, recording its
arguments). -/
structure AssetFinder where
  get_ordered_contracts : String → OrderedContracts

/-- External collaborator: the trading calendar, of which the code only calls
`session_distance`. -/
structure TradingCalendar where
  session_distance : Option Date → Option Date → Nat

/-- External collaborator: the data portal.  `get_history_window` takes the
effective assets, `end_dt`, `bar_count`, `frequency`, `field` and
`data_frequency`, and either returns a price table or raises (modelled as
`Except.error`, which `expected_shortfall` propagates unhandled, exactly as a
Python exception would propagate). -/
structure DataPortal where
  trading_calendar : TradingCalendar
  asset_finder : AssetFinder
  get_history_window :
    List EffectiveAsset → Option Date → Nat → String → String → String →
      Except String PriceTable

/-- Embeds the field layout set up by `AlgorithmPortfolio.__init__`: the
`Portfolio` fields plus `data_portal`, `benchmark` and `current_date`. -/
structure AlgorithmPortfolio extends Portfolio where
  data_portal : DataPortal
  benchmark : Option Asset
  current_date : Option Date

/-- Embeds `AlgorithmPortfolio._asset_for_history_call` (protocol.py lines
257-281): an equity listed less than a trading year ago is replaced by the
configured benchmark when there is one; a future is replaced by the
continuous contract for its root symbol at the offset of this contract, with a
volume roll and multiplicative adjustment; anything else is returned
unchanged.  The Python `A and B` condition is embedded as nested branches,
which is equivalent because both tests are pure. -/
def _asset_for_history_call (p : AlgorithmPortfolio) (asset : Asset) :
    EffectiveAsset :=
  match asset with
  | Asset.equity sid sd =>
      match p.benchmark with
      | some b =>
          if p.data_portal.trading_calendar.session_distance (some sd)
               p.current_date < TRADING_DAYS_PER_YEAR then
            EffectiveAsset.plain b
          else
            EffectiveAsset.plain (Asset.equity sid sd)
      | none => EffectiveAsset.plain (Asset.equity sid sd)
  | Asset.future sid root _ =>
      EffectiveAsset.continuous_future root
        ((p.data_portal.asset_finder.get_ordered_contracts root).offset_of_contract
          sid p.current_date)
        "volume" "mul"
  | Asset.generic sid => EffectiveAsset.plain (Asset.generic sid)

/-- Embeds the pandas forward fill performed by `pct_change` (whose default
`fill_method` pads missing values before differencing): each missing entry is
replaced by the most recent present value, when there is one. -/
def ffill_from : Option ℚ → List (Option ℚ) → List (Option ℚ)
  | _, [] => []
  | prev, none :: xs => prev :: ffill_from prev xs
  | _, some v :: xs => some v :: ffill_from (some v) xs

/-- Pairwise percentage change over a forward-filled column: entry `t` is
`(x t - x (t-1)) / x (t-1)` when both are present, missing otherwise.  The
first argument is the value preceding the list (none at the start of the
column, making the first output row missing, as in pandas). -/
def pct_change_pairs : Option ℚ → List (Option ℚ) → List (Option ℚ)
  | _, [] => []
  | prev, cur :: rest =>
      (match prev, cur with
        | some a, some b => some ((b - a) / a)
        | _, _ => none) :: pct_change_pairs cur rest

/-- Embeds `DataFrame.pct_change` on one column. -/
def pct_change_col (col : List (Option ℚ)) : List (Option ℚ) :=
  pct_change_pairs none (ffill_from none col)

/-- Embeds `prices.pct_change()` (protocol.py line 250), column by column. -/
def pct_change (prices : PriceTable) : PriceTable :=
  prices.map pct_change_col

/-- Embeds `fillna(0)` on one cell: a missing value becomes `0`. -/
def fillna0 (x : Option ℚ) : ℚ := x.getD 0

/-- Pointwise sum of two equally long daily series. -/
def add_series : List ℚ → List ℚ → List ℚ
  | x :: xs, y :: ys => (x + y) :: add_series xs ys
  | [], ys => ys
  | xs, [] => xs

/-- Embeds `asset_returns.fillna(0).dot(weights.values)` (protocol.py line
253): every missing return cell is replaced by `0`, each column is scaled by
its portfolio weight, and the columns are summed pointwise into the
daily return series of the portfolio. -/
def fillna_dot (returns_table : PriceTable) (ws : List ℚ) : List ℚ :=
  (List.zip returns_table ws).foldr
    (fun cw acc => add_series (cw.1.map (fun x => fillna0 x * cw.2)) acc) []

/-- The result of the `expected_shortfall` property: the `np.NaN` sentinel,
a propagated exception, or a computed CVaR number. -/
inductive ESResult
  | nan
  | error (e : String)
  | value (q : ℚ)
  deriving DecidableEq

/-- Embeds the `AlgorithmPortfolio.expected_shortfall` property (protocol.py
lines 211-255).  `cvar` is the external
`empyrical.conditional_value_at_risk` routine, taken as a parameter; the
Python locals `num_days_of_data`, `num_lookback_days`, `weights`, `assets`,
`prices` and `asset_returns` are inlined. -/
def expected_shortfall (cvar : List ℚ → ℚ → ℚ) (p : AlgorithmPortfolio) :
    ESResult :=
  if p.data_portal.trading_calendar.session_distance p.start_date p.current_date
       < TRADING_DAYS_PER_YEAR then
    ESResult.nan
  else
    match p.data_portal.get_history_window
        ((current_portfolio_weights p.toPortfolio).map
          (fun aw => _asset_for_history_call p aw.1))
        p.current_date
        (if p.data_portal.trading_calendar.session_distance p.start_date
              p.current_date < CVAR_LOOKBACK_DAYS
         then p.data_portal.trading_calendar.session_distance p.start_date
                p.current_date
         else CVAR_LOOKBACK_DAYS)
        "1d" "price" "daily" with
    | Except.error e => ESResult.error e
    | Except.ok prices =>
        ESResult.value (cvar
          (fillna_dot (pct_change prices)
            ((current_portfolio_weights p.toPortfolio).map Prod.snd))
          CVAR_CUTOFF)

/-- A Python attribute value, covering the field types of the three record
classes that carry the deprecated bracket lookup.  `vinf` is the float infinity
as used by `Account.__init__`. -/
inductive Value
  | vq (q : ℚ)
  | vint (n : Int)
  | vasset (a : Asset)
  | vdate (d : Option Date)
  | vbook (b : PositionsBook)
  | vinf
  deriving DecidableEq

/-- Embeds `_deprecated_getitem_method` (protocol.py lines 91-121): the
generated lookup warns on every call, then returns `self.__dict__[key]` when
the key is in the frozen `attrs` set and raises `KeyError(key)` otherwise.
The instance `__dict__` is passed as a function; reading a key that
the instance `__dict__` does not hold also raises `KeyError` (that is what
the subscript on `self.__dict__` does in Python). -/
def _deprecated_getitem_method (name : String) (attrs : List String)
    (dict : String → Option Value) (key : String) :
    List String × Except String Value :=
  ([name ++ "[" ++ key ++ "] is deprecated, please use " ++ name ++ "." ++ key
      ++ " instead"],
   if key ∈ attrs then
     match dict key with
     | some v => Except.ok v
     | none => Except.error key
   else Except.error key)

/-- The frozen attribute set passed for `Position.__getitem__` (protocol.py
lines 360-368). -/
def position_attrs : List String :=
  ["sid", "amount", "cost_basis", "last_sale_price", "last_sale_date"]

/-- The instance `__dict__` of a `Position` as populated by
`Position.__init__`: note that it holds `asset` and not `sid` (`sid` is a
class-level property, never an instance attribute). -/
def Position.instance_dict (p : Position) : String → Option Value := fun k =>
  if k = "asset" then some (Value.vasset p.asset)
  else if k = "amount" then some (Value.vint p.amount)
  else if k = "cost_basis" then some (Value.vq p.cost_basis)
  else if k = "last_sale_price" then some (Value.vq p.last_sale_price)
  else if k = "last_sale_date" then some (Value.vdate p.last_sale_date)
  else none

/-- Python attribute access on a `Position`: the `sid` property returns
`self.asset`; every other recognised attribute comes from the instance
`__dict__`. -/
def Position.getattr (p : Position) : String → Option Value := fun k =>
  if k = "sid" then some (Value.vasset p.asset) else Position.instance_dict p k

/-- Embeds the `Position.__getitem__` installed by
`_deprecated_getitem_method` on `Position`. -/
def Position.getitem_dep (p : Position) (key : String) :
    List String × Except String Value :=
  _deprecated_getitem_method "position" position_attrs (Position.instance_dict p)
    key

/-- The frozen attribute set passed for `Portfolio.__getitem__` (protocol.py
lines 168-180). -/
def portfolio_attrs : List String :=
  ["capital_used", "starting_cash", "portfolio_value", "pnl", "returns",
   "cash", "positions", "start_date", "positions_value"]

/-- The instance `__dict__` of a `Portfolio` as populated by
`Portfolio.__init__`. -/
def Portfolio.instance_dict (p : Portfolio) : String → Option Value := fun k =>
  if k = "capital_used" then some (Value.vq p.capital_used)
  else if k = "starting_cash" then some (Value.vq p.starting_cash)
  else if k = "portfolio_value" then some (Value.vq p.portfolio_value)
  else if k = "pnl" then some (Value.vq p.pnl)
  else if k = "returns" then some (Value.vq p.returns)
  else if k = "cash" then some (Value.vq p.cash)
  else if k = "positions" then some (Value.vbook p.positions)
  else if k = "start_date" then some (Value.vdate p.start_date)
  else if k = "positions_value" then some (Value.vq p.positions_value)
  else none

/-- Python attribute access on a `Portfolio` for the flat fields: every
recognised attribute is an instance attribute (the only property,
`current_portfolio_weights`, is outside the frozen set and outside `Value`,
so it is not represented here). -/
def Portfolio.getattr (p : Portfolio) : String → Option Value :=
  Portfolio.instance_dict p

/-- Embeds the `Portfolio.__getitem__` installed by
`_deprecated_getitem_method` on `Portfolio`. -/
def Portfolio.getitem_dep (p : Portfolio) (key : String) :
    List String × Except String Value :=
  _deprecated_getitem_method "portfolio" portfolio_attrs
    (Portfolio.instance_dict p) key

/-- Embeds the field layout set up by `Account.__init__`; fields are kept as
`Value` so the float-infinity defaults are representable. -/
structure Account where
  settled_cash : Value
  accrued_interest : Value
  buying_power : Value
  equity_with_loan : Value
  total_positions_value : Value
  total_positions_exposure : Value
  regt_equity : Value
  regt_margin : Value
  initial_margin_requirement : Value
  maintenance_margin_requirement : Value
  available_funds : Value
  excess_liquidity : Value
  cushion : Value
  day_trades_remaining : Value
  leverage : Value
  net_leverage : Value
  net_liquidation : Value
  deriving DecidableEq

/-- Embeds the defaults assigned by `Account.__init__` (zero everywhere,
infinity for `buying_power`, `regt_margin` and `day_trades_remaining`). -/
def Account.init : Account :=
  ⟨Value.vq 0, Value.vq 0, Value.vinf, Value.vq 0, Value.vq 0, Value.vq 0,
   Value.vq 0, Value.vinf, Value.vq 0, Value.vq 0, Value.vq 0, Value.vq 0,
   Value.vq 0, Value.vinf, Value.vq 0, Value.vq 0, Value.vq 0⟩

/-- The frozen attribute set passed for `Account.__getitem__` (protocol.py
lines 317-337). -/
def account_attrs : List String :=
  ["settled_cash", "accrued_interest", "buying_power", "equity_with_loan",
   "total_positions_value", "total_positions_exposure", "regt_equity",
   "regt_margin", "initial_margin_requirement",
   "maintenance_margin_requirement", "available_funds", "excess_liquidity",
   "cushion", "day_trades_remaining", "leverage", "net_leverage",
   "net_liquidation"]

/-- The instance `__dict__` of an `Account` as populated by
`Account.__init__`. -/
def Account.instance_dict (a : Account) : String → Option Value := fun k =>
  if k = "settled_cash" then some a.settled_cash
  else if k = "accrued_interest" then some a.accrued_interest
  else if k = "buying_power" then some a.buying_power
  else if k = "equity_with_loan" then some a.equity_with_loan
  else if k = "total_positions_value" then some a.total_positions_value
  else if k = "total_positions_exposure" then some a.total_positions_exposure
  else if k = "regt_equity" then some a.regt_equity
  else if k = "regt_margin" then some a.regt_margin
  else if k = "initial_margin_requirement" then
    some a.initial_margin_requirement
  else if k = "maintenance_margin_requirement" then
    some a.maintenance_margin_requirement
  else if k = "available_funds" then some a.available_funds
  else if k = "excess_liquidity" then some a.excess_liquidity
  else if k = "cushion" then some a.cushion
  else if k = "day_trades_remaining" then some a.day_trades_remaining
  else if k = "leverage" then some a.leverage
  else if k = "net_leverage" then some a.net_leverage
  else if k = "net_liquidation" then some a.net_liquidation
  else none

/-- Embeds the `Account.__getitem__` installed by
`_deprecated_getitem_method` on `Account`. -/
def Account.getitem_dep (a : Account) (key : String) :
    List String × Except String Value :=
  _deprecated_getitem_method "account" account_attrs (Account.instance_dict a)
    key

/-- A concrete stand-in for the external CVaR routine (it sums the return
series and ignores the cutoff), used to instantiate theorems that hold for
every such routine. -/
def cvar_sum : List ℚ → ℚ → ℚ := fun rs _ => rs.foldr (fun a b => a + b) 0

/-- Concrete futures contract with multiplier 50. -/
def futAsset : Asset := Asset.future 8 "CL" 50

/-- Concrete futures position: amount 2, last sale price 10. -/
def futPos : Position := ⟨futAsset, 2, 0, 10, none⟩

/-- Concrete portfolio holding `futPos` with portfolio value 2000. -/
def pFut : Portfolio := ⟨0, 0, 2000, 0, 0, 0, [(futAsset, futPos)], none, 0⟩

/-- Concrete data portal whose calendar reports a 100-session distance. -/
def shortPortal : DataPortal :=
  ⟨⟨fun _ _ => 100⟩, ⟨fun _ => ⟨fun _ _ => 0⟩⟩,
   fun _ _ _ _ _ _ => Except.error "no data"⟩

/-- Concrete algorithm portfolio with fewer than 252 sessions of data. -/
def pShort : AlgorithmPortfolio :=
  ⟨⟨0, 0, 0, 0, 0, 0, [], some 0, 0⟩, shortPortal, none, some 100⟩

/-- Concrete data portal whose calendar reports 1000 sessions and whose
history call reports back the bar count it was asked for, through the error
channel. -/
def spyPortal : DataPortal :=
  ⟨⟨fun _ _ => 1000⟩, ⟨fun _ => ⟨fun _ _ => 0⟩⟩,
   fun _ _ bar_count _ _ _ => Except.error (toString bar_count)⟩

/-- Concrete algorithm portfolio with 1000 sessions of available data. -/
def pSpy : AlgorithmPortfolio :=
  ⟨⟨0, 0, 0, 0, 0, 0, [], some 0, 0⟩, spyPortal, none, some 1000⟩

/-- Concrete one-column price table with a missing price (a gap) in its
second row. -/
def tblGap : PriceTable := [[some 10, none, some 12]]

/-- Concrete data portal that reports 300 sessions and returns `tblGap` for
every history request. -/
def gapPortal : DataPortal :=
  ⟨⟨fun _ _ => 300⟩, ⟨fun _ => ⟨fun _ _ => 0⟩⟩,
   fun _ _ _ _ _ _ => Except.ok tblGap⟩

/-- Concrete plain asset for the gap scenario. -/
def gAsset : Asset := Asset.generic 1

/-- Concrete position of one unit at price 1. -/
def posG : Position := ⟨gAsset, 1, 0, 1, none⟩

/-- Concrete algorithm portfolio whose single position has weight 1 and whose
portal serves a price history containing a gap. -/
def pGap : AlgorithmPortfolio :=
  ⟨⟨0, 0, 1, 0, 0, 0, [(gAsset, posG)], some 0, 0⟩, gapPortal, none, some 400⟩

/-- Decides whether a price table has a missing value beyond the first row of
some column. -/
def table_has_gap (t : PriceTable) : Bool :=
  t.any (fun col => (col.drop 1).any (fun c => c.isNone))

/-- Concrete benchmark asset. -/
def bmAsset : Asset := Asset.generic 99

/-- Concrete data portal whose calendar reports a 30-session distance and
whose contract chains report offset 2. -/
def benchPortal : DataPortal :=
  ⟨⟨fun _ _ => 30⟩, ⟨fun _ => ⟨fun _ _ => 2⟩⟩,
   fun _ _ _ _ _ _ => Except.error "no data"⟩

/-- Concrete algorithm portfolio with a configured benchmark. -/
def pBench : AlgorithmPortfolio :=
  ⟨⟨0, 0, 0, 0, 0, 0, [], none, 0⟩, benchPortal, some bmAsset, some 500⟩

/-- Forward filling preserves the column length. -/
theorem ffill_from_length (prev : Option ℚ) (col : List (Option ℚ)) :
    (ffill_from prev col).length = col.length := by
  induction col generalizing prev with
  | nil => rfl
  | cons x xs ih =>
    cases x with
    | none => simp [ffill_from, ih]
    | some v => simp [ffill_from, ih]

/-- A missing entry is forward-filled with the value of the preceding row, so
the filled column repeats itself across the gap. -/
theorem ffill_from_gap (prev : Option ℚ) (col : List (Option ℚ)) (i : Nat)
    (h : col.get? (i + 1) = some none) :
    (ffill_from prev col).get? (i + 1) = (ffill_from prev col).get? i := by
  induction col generalizing prev i with
  | nil => simp [List.get?] at h
  | cons x xs ih =>
    cases i with
    | zero =>
      have hx : xs.get? 0 = some none := by simpa [List.get?] using h
      cases xs with
      | nil => simp [List.get?] at hx
      | cons y ys =>
        have hy : y = none := by simpa [List.get?] using hx
        subst hy
        cases x with
        | none => simp [ffill_from, List.get?]
        | some v => simp [ffill_from, List.get?]
    | succ j =>
      have hx : xs.get? (j + 1) = some none := by simpa [List.get?] using h
      cases x with
      | none => simpa [ffill_from, List.get?] using ih prev j hx
      | some v => simpa [ffill_from, List.get?] using ih (some v) j hx

/-- When two consecutive rows of the (filled) column are equal, the
percentage change at the second of them is either missing or exactly zero. -/
theorem pct_change_pairs_repeat (prev : Option ℚ) (l : List (Option ℚ))
    (i : Nat) (a : Option ℚ) (hi : l.get? i = some a)
    (hj : l.get? (i + 1) = some a) :
    (pct_change_pairs prev l).get? (i + 1) = some none ∨
    (pct_change_pairs prev l).get? (i + 1) = some (some 0) := by
  induction l generalizing prev i with
  | nil => simp [List.get?] at hi
  | cons x xs ih =>
    cases i with
    | zero =>
      have hx : x = a := by simpa [List.get?] using hi
      have hx2 : xs.get? 0 = some a := by simpa [List.get?] using hj
      cases xs with
      | nil => simp [List.get?] at hx2
      | cons y ys =>
        have hy : y = a := by simpa [List.get?] using hx2
        cases a with
        | none =>
          subst hx
          subst hy
          left
          simp [pct_change_pairs, List.get?]
        | some v =>
          subst hx
          subst hy
          right
          simp [pct_change_pairs, List.get?, sub_self, zero_div]
    | succ j =>
      have hx : xs.get? j = some a := by simpa [List.get?] using hi
      have hx2 : xs.get? (j + 1) = some a := by simpa [List.get?] using hj
      simpa [pct_change_pairs, List.get?] using ih x j hx hx2

/-- A price missing in any row after the first always turns into a zero entry
of the zero-filled return column: pandas `pct_change` pads it from the
previous price (yielding a zero return) when a previous price exists, and
leaves the return missing otherwise, after which `fillna(0)` makes it zero.
Nothing on this path reports an error. -/
theorem gap_return_zero (col : List (Option ℚ)) (i : Nat)
    (h : col.get? (i + 1) = some none) :
    ((pct_change_col col).map fillna0).get? (i + 1) = some 0 := by
  have hlen : i + 1 < col.length := by
    by_contra hge
    have : col.get? (i + 1) = none := List.get?_eq_none.mpr (by omega)
    rw [this] at h
    exact Option.noConfusion h
  have hflen : (ffill_from none col).length = col.length :=
    ffill_from_length none col
  have hgap := ffill_from_gap none col i h
  have hsome : ∃ a, (ffill_from none col).get? (i + 1) = some a := by
    cases hv : (ffill_from none col).get? (i + 1) with
    | none =>
      have := List.get?_eq_none.mp hv
      omega
    | some a => exact ⟨a, rfl⟩
  obtain ⟨a, ha⟩ := hsome
  have ha' : (ffill_from none col).get? i = some a := by
    rw [← hgap]; exact ha
  have hdisj := pct_change_pairs_repeat none (ffill_from none col) i a ha' ha
  unfold pct_change_col
  rcases hdisj with hcase | hcase
  · rw [List.get?_map, hcase]; rfl
  · rw [List.get?_map, hcase]; rfl

/-- C1: with nonzero portfolio value, `current_portfolio_weights` maps each
held asset to `last_sale_price * amount * multiplier / portfolio_value`,
where the multiplier is 1 for every non-futures asset and the contract
multiplier for a futures asset; a futures position with amount 2, last sale
price 10 and multiplier 50 contributes market value 1000 (weight times
portfolio value is 1000); an empty position book yields the empty mapping. -/
theorem current_portfolio_weights_spec (p : Portfolio)
    (h : p.portfolio_value ≠ 0) :
    (∀ a pos, (a, pos) ∈ p.positions →
       (a, pos.last_sale_price * (pos.amount : ℚ) * asset_multiplier a
          / p.portfolio_value) ∈ current_portfolio_weights p)
  ∧ (∀ sid sd, asset_multiplier (Asset.equity sid sd) = 1)
  ∧ (∀ sid, asset_multiplier (Asset.generic sid) = 1)
  ∧ (∀ sid root m, asset_multiplier (Asset.future sid root m) = m)
  ∧ (∀ sid root (pos : Position), pos.amount = 2 → pos.last_sale_price = 10 →
       (Asset.future sid root 50, pos) ∈ p.positions →
       ∃ w, (Asset.future sid root 50, w) ∈ current_portfolio_weights p ∧
         w * p.portfolio_value = 1000)
  ∧ (p.positions = [] → current_portfolio_weights p = []) := by
  refine ⟨?_, fun _ _ => rfl, fun _ => rfl, fun _ _ _ => rfl, ?_, ?_⟩
  · intro a pos hmem
    exact List.mem_map_of_mem _ hmem
  · intro sid root pos hamt hprice hmem
    refine ⟨pos.last_sale_price * (pos.amount : ℚ)
      * asset_multiplier (Asset.future sid root 50) / p.portfolio_value,
      List.mem_map_of_mem _ hmem, ?_⟩
    rw [div_mul_cancel₀ _ h, hamt, hprice]
    norm_num [asset_multiplier]
  · intro hempty
    simp [current_portfolio_weights, hempty]

/-- Witness for C1: in the concrete portfolio `pFut` (portfolio value 2000),
the futures position with amount 2, price 10 and multiplier 50 carries a
weight whose product with the portfolio value is exactly 1000. -/
theorem current_portfolio_weights_spec_witness :
    ∃ w, (Asset.future 8 "CL" 50, w) ∈ current_portfolio_weights pFut ∧
      w * pFut.portfolio_value = 1000 :=
  (current_portfolio_weights_spec pFut (by decide)).2.2.2.2.1 8 "CL" futPos
    rfl rfl (by decide)

/-- C2: whenever the trading calendar reports fewer than 252 sessions between
`start_date` and `current_date`, `expected_shortfall` returns the NaN
sentinel, for every portfolio content, every data portal and every CVaR
routine; it neither raises nor returns a number. -/
theorem expected_shortfall_nan_when_short (cvar : List ℚ → ℚ → ℚ)
    (p : AlgorithmPortfolio)
    (h : p.data_portal.trading_calendar.session_distance p.start_date
           p.current_date < TRADING_DAYS_PER_YEAR) :
    expected_shortfall cvar p = ESResult.nan := by
  unfold expected_shortfall
  rw [if_pos h]

/-- Witness for C2: the concrete portfolio `pShort` has a 100-session
distance, and its expected shortfall is the NaN sentinel. -/
theorem expected_shortfall_nan_when_short_witness :
    expected_shortfall cvar_sum pShort = ESResult.nan :=
  expected_shortfall_nan_when_short cvar_sum pShort (by decide)

/-- C3: when at least 252 sessions are available, the `bar_count` that
`expected_shortfall` passes to `get_history_window` is `min n 504` (observed
here through a portal that reports back the bar count it receives); with 1000
sessions the window length is 504, and for `n` at most 504 it is `n`
itself. -/
theorem expected_shortfall_lookback_clamped (cvar : List ℚ → ℚ → ℚ)
    (p : AlgorithmPortfolio) (n : Nat) (h252 : TRADING_DAYS_PER_YEAR ≤ n)
    (hsd : p.data_portal.trading_calendar.session_distance p.start_date
             p.current_date = n)
    (hspy : p.data_portal.get_history_window
              = fun _ _ bar_count _ _ _ => Except.error (toString bar_count)) :
    expected_shortfall cvar p = ESResult.error (toString (min n 504))
  ∧ min 1000 504 = 504
  ∧ (n ≤ 504 → min n 504 = n) := by
  have hmin : (if n < CVAR_LOOKBACK_DAYS then n else CVAR_LOOKBACK_DAYS)
      = min n 504 := by
    show (if n < 504 then n else 504) = min n 504
    split <;> omega
  refine ⟨?_, rfl, fun hle => Nat.min_eq_left hle⟩
  simp only [expected_shortfall, hsd, hspy]
  rw [if_neg (Nat.not_lt.mpr h252), hmin]

/-- Witness for C3: the concrete portfolio `pSpy` has 1000 available
sessions, and the history request it issues carries bar count 504. -/
theorem expected_shortfall_lookback_clamped_witness :
    expected_shortfall cvar_sum pSpy = ESResult.error (toString (min 1000 504))
  ∧ min 1000 504 = 504
  ∧ (1000 ≤ 504 → min 1000 504 = 1000) :=
  expected_shortfall_lookback_clamped cvar_sum pSpy 1000 (by decide) rfl rfl

/-- C4 counterexample: the claim says a gap in the fetched price history
propagates as a reported error and is never silently zeroed.  In the concrete
state `pGap` the portal returns a table with a missing price in its second
row, yet `expected_shortfall` reports no error: it returns the numeric value
obtained by treating the gap as a zero return (here 1/5, the sum of the
returns 0, 0 and 1/5 under the summing CVaR stand-in). -/
theorem expected_shortfall_gap_counterexample :
    table_has_gap tblGap = true
  ∧ gapPortal.get_history_window [EffectiveAsset.plain gAsset] (some 400) 300
      "1d" "price" "daily" = Except.ok tblGap
  ∧ expected_shortfall cvar_sum pGap = ESResult.value (1 / 5)
  ∧ ∀ e, expected_shortfall cvar_sum pGap ≠ ESResult.error e := by
  have h1 : expected_shortfall cvar_sum pGap
      = ESResult.value (cvar_sum
          (fillna_dot (pct_change tblGap)
            ((current_portfolio_weights pGap.toPortfolio).map Prod.snd))
          CVAR_CUTOFF) := rfl
  have h2 : cvar_sum
      (fillna_dot (pct_change tblGap)
        ((current_portfolio_weights pGap.toPortfolio).map Prod.snd))
      CVAR_CUTOFF = 1 / 5 := by
    norm_num [cvar_sum, fillna_dot, pct_change, pct_change_col,
      pct_change_pairs, ffill_from, tblGap, fillna0, add_series,
      current_portfolio_weights, pGap, posG, gAsset, asset_multiplier]
  have hval : expected_shortfall cvar_sum pGap = ESResult.value (1 / 5) := by
    rw [h1, h2]
  exact ⟨rfl, rfl, hval,
    fun e he => by rw [hval] at he; exact ESResult.noConfusion he⟩

/-- C4 amended: a gap inside a successfully fetched price table does not
propagate as an error.  Whenever the portal returns a table, the call returns
the numeric CVaR of the zero-filled weighted return series, and every missing
price beyond the first row turns into a zero entry of the zero-filled return
column; only an exception raised by the portal itself propagates to the
caller. -/
theorem expected_shortfall_zero_fills_gaps (cvar : List ℚ → ℚ → ℚ)
    (p : AlgorithmPortfolio) (t : PriceTable)
    (h252 : TRADING_DAYS_PER_YEAR ≤
      p.data_portal.trading_calendar.session_distance p.start_date
        p.current_date)
    (hok : p.data_portal.get_history_window
        ((current_portfolio_weights p.toPortfolio).map
          (fun aw => _asset_for_history_call p aw.1))
        p.current_date
        (if p.data_portal.trading_calendar.session_distance p.start_date
              p.current_date < CVAR_LOOKBACK_DAYS
         then p.data_portal.trading_calendar.session_distance p.start_date
                p.current_date
         else CVAR_LOOKBACK_DAYS)
        "1d" "price" "daily" = Except.ok t) :
    expected_shortfall cvar p
      = ESResult.value (cvar
          (fillna_dot (pct_change t)
            ((current_portfolio_weights p.toPortfolio).map Prod.snd))
          CVAR_CUTOFF)
  ∧ (∀ e, expected_shortfall cvar p ≠ ESResult.error e)
  ∧ ∀ col ∈ t, ∀ i : Nat, col.get? (i + 1) = some none →
      ((pct_change_col col).map fillna0).get? (i + 1) = some 0 := by
  have hval : expected_shortfall cvar p
      = ESResult.value (cvar
          (fillna_dot (pct_change t)
            ((current_portfolio_weights p.toPortfolio).map Prod.snd))
          CVAR_CUTOFF) := by
    unfold expected_shortfall
    rw [if_neg (Nat.not_lt.mpr h252), hok]
  refine ⟨hval, fun e he => by rw [hval] at he; exact ESResult.noConfusion he,
    ?_⟩
  intro col _ i hmiss
  exact gap_return_zero col i hmiss

/-- Witness for the amended C4: instantiated at the concrete gap scenario
`pGap` with the table `tblGap`. -/
theorem expected_shortfall_zero_fills_gaps_witness :
    expected_shortfall cvar_sum pGap
      = ESResult.value (cvar_sum
          (fillna_dot (pct_change tblGap)
            ((current_portfolio_weights pGap.toPortfolio).map Prod.snd))
          CVAR_CUTOFF)
  ∧ (∀ e, expected_shortfall cvar_sum pGap ≠ ESResult.error e)
  ∧ ∀ col ∈ tblGap, ∀ i : Nat, col.get? (i + 1) = some none →
      ((pct_change_col col).map fillna0).get? (i + 1) = some 0 :=
  expected_shortfall_zero_fills_gaps cvar_sum pGap tblGap (by decide) rfl

/-- C5: the effective asset resolved for the history fetch is the configured
benchmark for an equity listed fewer than 252 sessions before `current_date`
when a benchmark is configured; the continuous contract of the root symbol at
the offset of this contract (volume roll, multiplicative adjustment) for a
future; and the asset itself in every other case (mature equity, equity
without a configured benchmark, or an asset that is neither an equity nor a
future). -/
theorem asset_for_history_call_spec (p : AlgorithmPortfolio) :
    (∀ sid sd b, p.benchmark = some b →
       p.data_portal.trading_calendar.session_distance (some sd) p.current_date
           < TRADING_DAYS_PER_YEAR →
       _asset_for_history_call p (Asset.equity sid sd) = EffectiveAsset.plain b)
  ∧ (∀ sid sd, TRADING_DAYS_PER_YEAR ≤
       p.data_portal.trading_calendar.session_distance (some sd)
         p.current_date →
       _asset_for_history_call p (Asset.equity sid sd)
         = EffectiveAsset.plain (Asset.equity sid sd))
  ∧ (∀ sid sd, p.benchmark = none →
       _asset_for_history_call p (Asset.equity sid sd)
         = EffectiveAsset.plain (Asset.equity sid sd))
  ∧ (∀ sid root m, _asset_for_history_call p (Asset.future sid root m)
       = EffectiveAsset.continuous_future root
           ((p.data_portal.asset_finder.get_ordered_contracts
               root).offset_of_contract sid p.current_date)
           "volume" "mul")
  ∧ (∀ sid, _asset_for_history_call p (Asset.generic sid)
       = EffectiveAsset.plain (Asset.generic sid)) := by
  refine ⟨?_, ?_, ?_, fun _ _ _ => rfl, fun _ => rfl⟩
  · intro sid sd b hb hshort
    simp [_asset_for_history_call, hb, if_pos hshort]
  · intro sid sd hmature
    cases hb : p.benchmark with
    | none => simp [_asset_for_history_call, hb]
    | some b =>
      simp [_asset_for_history_call, hb, if_neg (Nat.not_lt.mpr hmature)]
  · intro sid sd hb
    simp [_asset_for_history_call, hb]

/-- Witness for C5: in the concrete state `pBench` the calendar reports a
30-session listing history, so the equity resolves to the benchmark, and a
futures contract resolves to the continuous contract at the offset (2)
reported by the contract chain, with a volume roll and multiplicative
adjustment. -/
theorem asset_for_history_call_spec_witness :
    _asset_for_history_call pBench (Asset.equity 1 470)
      = EffectiveAsset.plain bmAsset
  ∧ _asset_for_history_call pBench (Asset.future 5 "CL" 1000)
      = EffectiveAsset.continuous_future "CL" 2 "volume" "mul" :=
  ⟨(asset_for_history_call_spec pBench).1 1 470 bmAsset rfl (by decide),
   (asset_for_history_call_spec pBench).2.2.2.1 5 "CL" 1000⟩

/-- C6 counterexample: the claim says a lookup of an absent asset inserts the
freshly built zero Position into the book.  Looking up an asset in the empty
book returns the zero Position, but the book afterwards is still empty — the
`dict.__missing__` hook returns its result without storing it, so nothing is
inserted. -/
theorem positions_missing_no_insert :
    (Positions.getitem_book [] (PKey.asset (Asset.equity 7 0))).1
      = LookupResult.position ⟨Asset.equity 7 0, 0, 0, 0, none⟩
  ∧ (Positions.getitem_book [] (PKey.asset (Asset.equity 7 0))).2.1 = []
  ∧ ((Positions.getitem_book [] (PKey.asset (Asset.equity 7 0))).2.1.find?
       (fun e => e.1 == Asset.equity 7 0)) = none := by
  exact ⟨rfl, rfl, rfl⟩

/-- C6 amended: a lookup of a recognised asset not present in the book
constructs and returns a zero-valued Position (amount 0, cost basis 0) and
does not raise or warn, but does not insert it: the book is returned
unchanged. -/
theorem positions_missing_asset_no_raise (book : PositionsBook) (a : Asset)
    (h : book.find? (fun e => e.1 == a) = none) :
    Positions.getitem_book book (PKey.asset a)
      = (LookupResult.position ⟨a, 0, 0, 0, none⟩, book, []) := by
  simp only [Positions.getitem_book, h]

/-- Witness for the amended C6: instantiated at the empty book and a concrete
equity. -/
theorem positions_missing_asset_no_raise_witness :
    Positions.getitem_book [] (PKey.asset (Asset.equity 7 0))
      = (LookupResult.position ⟨Asset.equity 7 0, 0, 0, 0, none⟩, [], []) :=
  positions_missing_asset_no_raise [] (Asset.equity 7 0) rfl

/-- C7, evaluated on the code: every bracket lookup warns, `Portfolio` and
`Account` do return the attribute value for names in their frozen sets and
raise `KeyError` outside them — but for `Position` the frozen set contains
`sid`, whose value is served by a property and is absent from the instance
`__dict__`, so `position` bracket lookup of `sid` raises `KeyError` even
though attribute access returns the asset.  This contradicts the claim (and
the deprecation message, which tells the caller that `position.sid` is the
supported spelling of a working lookup). -/
theorem deprecated_getitem_sid_bug :
    ("sid" ∈ position_attrs)
  ∧ (∀ p : Position, Position.getattr p "sid" = some (Value.vasset p.asset))
  ∧ (∀ p : Position, (Position.getitem_dep p "sid").2 = Except.error "sid")
  ∧ (∀ (p : Position) (k : String), (Position.getitem_dep p k).1 ≠ [])
  ∧ (∀ p : Position,
       (Position.getitem_dep p "amount").2 = Except.ok (Value.vint p.amount))
  ∧ (∀ pf : Portfolio,
       (Portfolio.getitem_dep pf "cash").2 = Except.ok (Value.vq pf.cash)
       ∧ Portfolio.getattr pf "cash" = some (Value.vq pf.cash))
  ∧ (∀ pf : Portfolio,
       (Portfolio.getitem_dep pf "not_a_field").2
         = Except.error "not_a_field")
  ∧ (∀ acc : Account,
       (Account.getitem_dep acc "buying_power").2 = Except.ok acc.buying_power)
  ∧ (∀ acc : Account,
       (Account.getitem_dep acc "not_a_field").2
         = Except.error "not_a_field") := by
  refine ⟨by decide, fun p => rfl, fun p => ?_, fun p k => ?_, fun p => ?_,
    fun pf => ⟨?_, rfl⟩, fun pf => ?_, fun acc => ?_, fun acc => ?_⟩
  · simp [Position.getitem_dep, _deprecated_getitem_method, position_attrs,
      Position.instance_dict]
  · simp [Position.getitem_dep, _deprecated_getitem_method]
  · simp [Position.getitem_dep, _deprecated_getitem_method, position_attrs,
      Position.instance_dict]
  · simp [Portfolio.getitem_dep, _deprecated_getitem_method, portfolio_attrs,
      Portfolio.instance_dict]
  · simp [Portfolio.getitem_dep, _deprecated_getitem_method, portfolio_attrs,
      Portfolio.instance_dict]
  · simp [Account.getitem_dep, _deprecated_getitem_method, account_attrs,
      Account.instance_dict]
  · simp [Account.getitem_dep, _deprecated_getitem_method, account_attrs,
      Account.instance_dict]

/-- C8: a lookup with a non-asset key — a raw integer, or a value of any
other non-asset type — returns a zero-valued compatibility record carrying
the raw key in its `sid` slot (the record has no `asset` slot by
construction), emits exactly one warning, never raises, and leaves the book
unchanged. -/
theorem positions_non_asset_lookup (book : PositionsBook) (n : Int)
    (t : String) :
    Positions.getitem_book book (PKey.intKey n)
      = (LookupResult.deprecated ⟨PKey.intKey n, 0, 0, 0, none⟩, book,
         ["Referencing positions by integer is deprecated."
           ++ " Use an asset instead."])
  ∧ Positions.getitem_book book (PKey.other t)
      = (LookupResult.deprecated ⟨PKey.other t, 0, 0, 0, none⟩, book,
         ["Position lookup expected a value of type Asset but got " ++ t
           ++ " instead."]) := by
  constructor
  · rfl
  · rfl

/-- C9: constructing a `Position` with a non-asset argument raises
`TypeError`; constructing it with an asset always succeeds and yields amount
0, cost basis 0, last sale price 0 and no last sale date. -/
theorem position_init_spec :
    (∀ k : PKey, (∀ a : Asset, k ≠ PKey.asset a) →
       Position.init k = Except.error "TypeError")
  ∧ (∀ a : Asset, ∃ pos, Position.init (PKey.asset a) = Except.ok pos ∧
       pos.asset = a ∧ pos.amount = 0 ∧ pos.cost_basis = 0 ∧
       pos.last_sale_price = 0 ∧ pos.last_sale_date = none) := by
  constructor
  · intro k hk
    match k with
    | PKey.asset a => exact absurd rfl (hk a)
    | PKey.intKey n => rfl
    | PKey.other t => rfl
  · intro a
    exact ⟨⟨a, 0, 0, 0, none⟩, rfl, rfl, rfl, rfl, rfl, rfl⟩

/-- Witness for C9: the integer key 3 is rejected with `TypeError`, and a
concrete equity is accepted with all-zero mutable fields. -/
theorem position_init_spec_witness :
    Position.init (PKey.intKey 3) = Except.error "TypeError"
  ∧ ∃ pos, Position.init (PKey.asset (Asset.equity 1 0)) = Except.ok pos ∧
      pos.asset = Asset.equity 1 0 ∧ pos.amount = 0 ∧ pos.cost_basis = 0 ∧
      pos.last_sale_price = 0 ∧ pos.last_sale_date = none :=
  ⟨position_init_spec.1 (PKey.intKey 3) (fun _ h => PKey.noConfusion h),
   position_init_spec.2 (Asset.equity 1 0)⟩

/-- C10: the `sid` accessor of a `Position` returns exactly the `asset`
field, for every state of the mutable fields. -/
theorem position_sid_eq_asset (p : Position) : Position.sid p = p.asset := rfl

end Zipline
